import Mathlib

/-!
# Verification of the filtered-view logic of the UK Road Collision Explorer

Shallow embedding of `src/app.py` (a Streamlit dashboard): the dataframe is a
list of rows, the pandas column operations become list operations, and the
Streamlit session (session_state plus the `st.cache_data` memo on
`apply_filters`) becomes an explicit state machine whose transitions are one
script run of the reset branch or of the apply branch.
-/

namespace RoadAccident

/-- A row of the loaded dataframe (after `load_data`).  Column names follow the
CSV columns used by `app.py`.  `latitude`/`longitude` stay nullable because the
pandas columns are nullable floats; `collision_year` is nullable because
`pd.to_numeric(..., errors="coerce")` produces NaN on failure. -/
structure Record where
  latitude : Option Rat
  longitude : Option Rat
  collision_severity : String
  weather_conditions : String
  light_conditions : String
  road_type : String
  collision_year : Option Int
deriving DecidableEq, Repr

/-- A raw CSV row as read by `pd.read_csv("collision.csv")`, in the case the
`collision_severity` column has integer dtype (the branch `app.py` lines 33-36
handles).  `collision_year` is the raw cell text fed to `pd.to_numeric`. -/
structure RawRow where
  latitude : Option Rat
  longitude : Option Rat
  collision_severity : Int
  weather_conditions : String
  light_conditions : String
  road_type : String
  collision_year : String
deriving DecidableEq, Repr

/-- `df["collision_severity"].map({1:"Fatal",2:"Serious",3:"Slight"})` followed
by `.astype(str)`: an unmapped code becomes NaN, which `astype(str)` renders as
the literal string "nan". -/
def severityOfCode (c : Int) : String :=
  if c = 1 then "Fatal"
  else if c = 2 then "Serious"
  else if c = 3 then "Slight"
  else "nan"

/-- Whitespace as stripped by `str.strip()`. -/
def isSpaceChar (c : Char) : Bool :=
  c == ' ' || c == '\t' || c == '\n' || c == '\r'

/-- Drop leading whitespace characters. -/
def dropLeadingSpace : List Char → List Char
  | [] => []
  | c :: cs => if isSpaceChar c then dropLeadingSpace cs else c :: cs

/-- `.str.strip()`: remove leading and trailing whitespace. -/
def stripStr (s : String) : String :=
  ⟨(dropLeadingSpace (dropLeadingSpace s.data).reverse).reverse⟩

/-- Accumulate decimal digits; any non-digit character fails the parse. -/
def parseDigitsAux : List Char → Nat → Option Nat
  | [], acc => some acc
  | c :: cs, acc =>
    if 48 ≤ c.toNat ∧ c.toNat ≤ 57 then parseDigitsAux cs (acc * 10 + (c.toNat - 48))
    else none

/-- `pd.to_numeric(cell, errors="coerce")` on a year cell: an integer string
(optionally negative) parses, anything else coerces to NaN (`none`). -/
def toNumericCoerce (s : String) : Option Int :=
  match s.data with
  | [] => none
  | '-' :: [] => none
  | '-' :: rest => (parseDigitsAux rest 0).map fun n => -(n : Int)
  | cs => (parseDigitsAux cs 0).map fun n => (n : Int)

/-- One row of `load_data` after the dropna filter: severity mapping, the
`.astype(str).str.strip()` normalisation of the four category columns, and the
numeric coercion of `collision_year`. -/
def parseRow (r : RawRow) : Record :=
  { latitude := r.latitude
    longitude := r.longitude
    collision_severity := stripStr (severityOfCode r.collision_severity)
    weather_conditions := stripStr r.weather_conditions
    light_conditions := stripStr r.light_conditions
    road_type := stripStr r.road_type
    collision_year := toNumericCoerce r.collision_year }

/-- `load_data` (`app.py` lines 29-48): drop rows with missing latitude or
longitude, then normalise the columns row by row.  The load is total: no raw
row ever fails it. -/
def load_data (rows : List RawRow) : List Record :=
  (rows.filter fun r => r.latitude.isSome && r.longitude.isSome).map parseRow

/-- `df[col].isin(allowed)`: the columnwise membership mask. -/
def isinMask (col : List String) (allowed : List String) : List Bool :=
  col.map fun v => allowed.contains v

/-- `df["collision_year"].between(lo, hi)`: inclusive on both ends, and NaN
(`none`) compares false. -/
def betweenMask (col : List (Option Int)) (lo hi : Int) : List Bool :=
  col.map fun v =>
    match v with
    | none => false
    | some y => decide (lo ≤ y) && decide (y ≤ hi)

/-- `&` of two boolean masks. -/
def andMask (m1 m2 : List Bool) : List Bool :=
  List.zipWith and m1 m2

/-- `df[mask]`: boolean selection of the rows where the mask is true. -/
def booleanSelect {α : Type} : List α → List Bool → List α
  | [], _ => []
  | _, [] => []
  | x :: xs, b :: bs => if b then x :: booleanSelect xs bs else booleanSelect xs bs

/-- `df[col]`: project one column of the dataframe. -/
def column {β : Type} (f : Record → β) (df : List Record) : List β :=
  df.map f

/-- `apply_filters` (`app.py` lines 128-136): the conjunction of the five
columnwise masks selects the filtered subset. -/
def apply_filters (df : List Record) (sev : List String) (years : Int × Int)
    (weather light road : List String) : List Record :=
  booleanSelect df
    (andMask
      (andMask
        (andMask
          (andMask
            (isinMask (column (fun r => r.collision_severity) df) sev)
            (betweenMask (column (fun r => r.collision_year) df) years.1 years.2))
          (isinMask (column (fun r => r.weather_conditions) df) weather))
        (isinMask (column (fun r => r.light_conditions) df) light))
      (isinMask (column (fun r => r.road_type) df) road))

/-- The row-wise reading of the five mask conjuncts. -/
def rowMatches (sev : List String) (years : Int × Int)
    (weather light road : List String) (r : Record) : Bool :=
  sev.contains r.collision_severity
    && (match r.collision_year with
        | none => false
        | some y => decide (years.1 ≤ y) && decide (y ≤ years.2))
    && weather.contains r.weather_conditions
    && light.contains r.light_conditions
    && road.contains r.road_type

theorem andMask_map_map {α : Type} (p q : α → Bool) (l : List α) :
    andMask (l.map p) (l.map q) = l.map fun x => p x && q x := by
  induction l with
  | nil => rfl
  | cons x xs ih =>
    simp only [List.map_cons, andMask, List.zipWith] at *
    exact congrArg _ ih

theorem booleanSelect_map_eq_filter {α : Type} (p : α → Bool) (l : List α) :
    booleanSelect l (l.map p) = l.filter p := by
  induction l with
  | nil => rfl
  | cons x xs ih =>
    by_cases hp : p x
    · simp [booleanSelect, List.map_cons, hp, ih, List.filter]
    · simp [booleanSelect, List.map_cons, hp, ih, List.filter]

/-- `apply_filters` is row-wise filtering by the conjunction of the five
conditions. -/
theorem apply_filters_eq_filter (df : List Record) (sev : List String)
    (years : Int × Int) (weather light road : List String) :
    apply_filters df sev years weather light road =
      df.filter (rowMatches sev years weather light road) := by
  unfold apply_filters column isinMask betweenMask
  simp only [List.map_map, Function.comp_def]
  rw [andMask_map_map, andMask_map_map, andMask_map_map, andMask_map_map]
  rw [booleanSelect_map_eq_filter]
  unfold rowMatches
  simp [Bool.and_assoc]

/-! ## The Streamlit session as a state machine

One state per script rerun boundary: the six filter keys of
`st.session_state`, the stored `map_object` and `df_filtered`, the
`initialized` flag, and the set of argument keys already seen by the
`@st.cache_data` memo of `apply_filters` (the dataframe argument is the same
on every call, so it is left out of the key). -/

/-- Lexicographic order on code points, as Python compares strings. -/
def charListLt : List Char → List Char → Bool
  | [], [] => false
  | [], _ :: _ => true
  | _ :: _, [] => false
  | c :: cs, d :: ds =>
    if c.toNat < d.toNat then true
    else if d.toNat < c.toNat then false
    else charListLt cs ds

/-- `a <= b` on strings, by code points. -/
def strLeb (a b : String) : Bool :=
  !charListLt b.data a.data

/-- Insert a string into a sorted list (ascending). -/
def insertStr (x : String) : List String → List String
  | [] => [x]
  | y :: ys => if strLeb x y then x :: y :: ys else y :: insertStr x ys

/-- Insertion sort on strings, modelling Python `sorted`. -/
def sortStr : List String → List String
  | [] => []
  | x :: xs => insertStr x (sortStr xs)

/-- `sorted(df[col].unique())`. -/
def sortedUnique (l : List String) : List String :=
  sortStr l.dedup

/-- `df[col].min()` on a nullable integer column: NaN entries are skipped. -/
def minYear (col : List (Option Int)) : Option Int :=
  col.foldl
    (fun acc v =>
      match acc, v with
      | none, v => v
      | some m, none => some m
      | some m, some y => some (min m y))
    none

/-- `df[col].max()` on a nullable integer column: NaN entries are skipped. -/
def maxYear (col : List (Option Int)) : Option Int :=
  col.foldl
    (fun acc v =>
      match acc, v with
      | none, v => v
      | some m, none => some m
      | some m, some y => some (max m y))
    none

/-- The six filter values held in `st.session_state` (and likewise the values
a submitted filter form carries): map mode, severities, year range, weathers,
lightings, road types. -/
structure FilterState where
  map_mode : String
  severity : List String
  years : Int × Int
  weather : List String
  light : List String
  road : List String
deriving DecidableEq, Repr

/-- `DEFAULTS` (`app.py` lines 56-63).  `int(nan)` would raise in Python when a
column is all-NaN; the `getD 0` fallback is never reached when some year
parses. -/
def DEFAULTS (df : List Record) : FilterState :=
  { map_mode := "Cluster"
    severity := sortedUnique (column (fun r => r.collision_severity) df)
    years := ((minYear (column (fun r => r.collision_year) df)).getD 0,
              (maxYear (column (fun r => r.collision_year) df)).getD 0)
    weather := sortedUnique (column (fun r => r.weather_conditions) df)
    light := sortedUnique (column (fun r => r.light_conditions) df)
    road := sortedUnique (column (fun r => r.road_type) df) }

/-- The `@st.cache_data` key of one `apply_filters` call: the argument tuple
`(sev, years, weather, light, road)` with the lists in the exact order they
were passed (the memo hashes values as given; it does not canonicalise). -/
structure FilterKey where
  sev : List String
  years : Int × Int
  weather : List String
  light : List String
  road : List String
deriving DecidableEq, Repr

/-- The cache key of an `apply_filters` call made with the six submitted
filter values. -/
def keyOf (w : FilterState) : FilterKey :=
  ⟨w.severity, w.years, w.weather, w.light, w.road⟩

/-- The folium map object: `folium.Map` centred from the coordinates with
`FastMarkerCluster(coords)` or `HeatMap(coords)` added.  Deterministic in the
coordinate list and the mode, which therefore determine it. -/
structure MapArtifact where
  coords : List (Option Rat × Option Rat)
  mode : String
deriving DecidableEq, Repr

/-- The mutable session: filter keys of `st.session_state`, `map_object`,
`df_filtered`, `initialized`, and the keys the `apply_filters` memo holds. -/
structure SessionState where
  filters : FilterState
  map_object : Option MapArtifact
  df_filtered : Option (List Record)
  initialized : Bool
  cacheKeys : List FilterKey
deriving DecidableEq, Repr

/-- Session-state init (`app.py` lines 68-79) at the first script run: filter
keys seeded from `DEFAULTS`, no map, no filtered frame, not initialized, and a
fresh `st.cache_data` memo. -/
def initState (df : List Record) : SessionState :=
  { filters := DEFAULTS df
    map_object := none
    df_filtered := none
    initialized := false
    cacheKeys := [] }

/-- The widget values of a run in which the user touched nothing (first load,
or the rerun right after a reset): the radio is `index=0` hence "Cluster", the
multiselects and the slider show their `default=st.session_state[...]`
values. -/
def defaultWidgets (s : SessionState) : FilterState :=
  { s.filters with map_mode := "Cluster" }

/-- What one execution of the apply branch produced, besides the new state:
how many times the body of `apply_filters` ran (0 on a memo hit), how many
maps were built, and whether the no-data warning was shown. -/
structure RunResult where
  state : SessionState
  filterComputes : Nat
  mapBuilds : Nat
  warned : Bool
deriving DecidableEq, Repr

/-- The apply branch (`app.py` lines 151-193), reached on `apply_btn` or on a
run with `initialized` false.  The widget values are copied into
`st.session_state`, `apply_filters` is consulted through its memo, and then
either the empty-result guard fires (`st.warning`; `st.stop` ends the script
before `df_filtered`/`map_object` are stored) or the map is built anew and
stored. -/
def applyBranch (df : List Record) (s : SessionState) (w : FilterState) : RunResult :=
  let s1 : SessionState := { s with filters := w }
  let key := keyOf w
  let hit := s1.cacheKeys.contains key
  let computes := if hit then 0 else 1
  let keys2 := if hit then s1.cacheKeys else key :: s1.cacheKeys
  let dfF := apply_filters df w.severity w.years w.weather w.light w.road
  if dfF.isEmpty then
    { state := { s1 with cacheKeys := keys2 }
      filterComputes := computes
      mapBuilds := 0
      warned := true }
  else
    { state :=
        { s1 with
          cacheKeys := keys2
          df_filtered := some dfF
          map_object := some ⟨dfF.map fun r => (r.latitude, r.longitude), w.map_mode⟩
          initialized := true }
      filterComputes := computes
      mapBuilds := 1
      warned := false }

/-- The reset branch (`app.py` lines 141-146): `DEFAULTS` written back into
`st.session_state`, `map_object` cleared, `initialized` cleared; `df_filtered`
and the `st.cache_data` memo are left alone.  `st.rerun()` follows. -/
def resetBranch (df : List Record) (s : SessionState) : SessionState :=
  { s with filters := DEFAULTS df, map_object := none, initialized := false }

/-- A full reset action: the reset branch, then the rerun it triggers, which
takes the apply branch (`initialized` is false) with untouched widgets. -/
def resetAction (df : List Record) (s : SessionState) : RunResult :=
  let s1 := resetBranch df s
  applyBranch df s1 (defaultWidgets s1)

/-- One discrete user action: submitting the form with values `w`, or
pressing reset. -/
inductive Action where
  | apply (w : FilterState)
  | reset
deriving DecidableEq, Repr

/-- The session-state transition of one user action. -/
def step (df : List Record) (s : SessionState) : Action → SessionState
  | .apply w => (applyBranch df s w).state
  | .reset => (resetAction df s).state

/-- The session state after a sequence of user actions. -/
def runActions (df : List Record) (s : SessionState) : List Action → SessionState
  | [] => s
  | a :: rest => runActions df (step df s a) rest

/-- `total` of the summary block (`app.py` line 201). -/
def totalOf (dfF : List Record) : Nat :=
  dfF.length

/-- `fatal` of the summary block (`app.py` line 202):
`(df_filtered["collision_severity"] == "Fatal").sum()`. -/
def fatalOf (dfF : List Record) : Nat :=
  (dfF.filter fun r => r.collision_severity == "Fatal").length

/-- `(fatal / total) * 100` rounded to hundredths of a percent, in exact
arithmetic (Python computes the quotient in floating point; the exact value
agrees with it whenever the rate is exactly representable, as in the
scenarios proved below).  Nat division makes this 0 when `total = 0`, where
Python would raise `ZeroDivisionError`; the session invariants proved below
show the summary never reaches that case. -/
def rateHundredths (fatal total : Nat) : Nat :=
  (fatal * 20000 + total) / (2 * total)

/-- Left-pad the fractional hundredths to two digits. -/
def twoDigitStr (n : Nat) : String :=
  if n < 10 then "0" ++ toString n else toString n

/-- The fatality-rate figure of the summary block (`app.py` line 210),
`f"{(fatal/total)*100:.2f}%"`. -/
def rateDisplay (fatal total : Nat) : String :=
  toString (rateHundredths fatal total / 100) ++ "."
    ++ twoDigitStr (rateHundredths fatal total % 100) ++ "%"

/-! ## Concrete data: the two-record scenario of the spec, and raw rows -/

/-- The 2019 record of the spec scenario. -/
def rec2019 : Record :=
  { latitude := some 51.5
    longitude := some (-0.1)
    collision_severity := "Fatal"
    weather_conditions := "Fine"
    light_conditions := "Daylight"
    road_type := "Single carriageway"
    collision_year := some 2019 }

/-- The 2020 record of the spec scenario. -/
def rec2020 : Record :=
  { latitude := some 53.4
    longitude := some (-2.9)
    collision_severity := "Slight"
    weather_conditions := "Raining"
    light_conditions := "Darkness"
    road_type := "Dual carriageway"
    collision_year := some 2020 }

/-- The scenario dataset. -/
def scenarioDf : List Record := [rec2019, rec2020]

/-- The all-inclusive Cluster FilterSpec of the scenario. -/
def fullSpec : FilterState :=
  { map_mode := "Cluster"
    severity := ["Fatal", "Slight"]
    years := (2019, 2020)
    weather := ["Fine", "Raining"]
    light := ["Daylight", "Darkness"]
    road := ["Single carriageway", "Dual carriageway"] }

/-- The scenario spec narrowed to severities = {Fatal}. -/
def fatalOnlySpec : FilterState :=
  { fullSpec with severity := ["Fatal"] }

/-- `fullSpec` with its severities chosen in the opposite order. -/
def fullSpecPerm : FilterState :=
  { fullSpec with severity := ["Slight", "Fatal"] }

/-- `fullSpec` with the severities multiselect emptied. -/
def emptySevSpec : FilterState :=
  { fullSpec with severity := [] }

/-- `fullSpec` with an inverted year range (min > max). -/
def invYearsSpec : FilterState :=
  { fullSpec with years := (2020, 2019) }

/-- The session after the first apply of `fullSpec` on the scenario dataset:
populated map, stored subset, memo holding the key of `fullSpec`. -/
def populatedOnce : SessionState :=
  (applyBranch scenarioDf (initState scenarioDf) fullSpec).state

/-- A raw CSV row whose severity code 4 has no mapping and whose year cell is
not numeric, but whose coordinates are present. -/
def badRow : RawRow :=
  { latitude := some 51.5
    longitude := some (-0.1)
    collision_severity := 4
    weather_conditions := "Fine"
    light_conditions := "Daylight"
    road_type := "Single carriageway"
    collision_year := "abc" }

/-- The raw form of the 2019 scenario record. -/
def rawRow2019 : RawRow :=
  { latitude := some 51.5
    longitude := some (-0.1)
    collision_severity := 1
    weather_conditions := "Fine"
    light_conditions := "Daylight"
    road_type := "Single carriageway"
    collision_year := "2019" }

/-- A raw row with a missing latitude, dropped by `load_data`. -/
def rawNoCoord : RawRow :=
  { latitude := none
    longitude := some (-0.1)
    collision_severity := 3
    weather_conditions := "Fine"
    light_conditions := "Daylight"
    road_type := "Single carriageway"
    collision_year := "2019" }

/-! ## Claims -/

theorem contains_true_iff_mem {α : Type} [DecidableEq α] {l : List α} {a : α} :
    l.contains a = true ↔ a ∈ l :=
  List.elem_iff

/-- **C2**: for every Dataset and FilterSpec, the Filter Predicate returns
exactly the ordered subsequence of Records whose severity, weather, lighting
and road type are members of the corresponding FilterSpec sets and whose year
lies in the inclusive range [yearMin, yearMax]; a Record with null year is
excluded, and the output preserves the relative order of the Dataset. -/
theorem apply_filters_exact_subsequence (df : List Record) (sev : List String)
    (years : Int × Int) (weather light road : List String) :
    (apply_filters df sev years weather light road).Sublist df ∧
      ∀ r : Record,
        r ∈ apply_filters df sev years weather light road ↔
          r ∈ df ∧ r.collision_severity ∈ sev
            ∧ (∃ y : Int, r.collision_year = some y ∧ years.1 ≤ y ∧ y ≤ years.2)
            ∧ r.weather_conditions ∈ weather
            ∧ r.light_conditions ∈ light
            ∧ r.road_type ∈ road := by
  rw [apply_filters_eq_filter]
  refine ⟨List.filter_sublist _, fun r => ?_⟩
  rw [List.mem_filter]
  simp only [rowMatches, Bool.and_eq_true, contains_true_iff_mem, decide_eq_true_eq]
  cases hy : r.collision_year with
  | none => simp [hy]
  | some y =>
    simp only [hy, Bool.and_eq_true, decide_eq_true_eq, Option.some.injEq]
    constructor
    · rintro ⟨hmem, ⟨⟨⟨⟨hsev, hy1, hy2⟩, hw⟩, hl⟩, hr⟩⟩
      exact ⟨hmem, hsev, ⟨y, rfl, hy1, hy2⟩, hw, hl, hr⟩
    · rintro ⟨hmem, hsev, ⟨y2, hy2eq, hy1, hy2⟩, hw, hl, hr⟩
      cases hy2eq
      exact ⟨hmem, ⟨⟨⟨⟨hsev, hy1, hy2⟩, hw⟩, hl⟩, hr⟩⟩

/-- **C9**: records with missing latitude or longitude are dropped at load
time and no filtering reintroduces them: every record of any filtered subset
of a loaded dataset has both coordinates present. -/
theorem filtered_records_have_coordinates (rows : List RawRow) (sev : List String)
    (years : Int × Int) (weather light road : List String) (r : Record)
    (hr : r ∈ apply_filters (load_data rows) sev years weather light road) :
    r.latitude.isSome = true ∧ r.longitude.isSome = true := by
  rw [apply_filters_eq_filter] at hr
  have hmem : r ∈ load_data rows := (List.filter_sublist _).subset hr
  unfold load_data at hmem
  rcases List.mem_map.mp hmem with ⟨q, hq, rfl⟩
  have hkeep := (List.mem_filter.mp hq).2
  simp only [Bool.and_eq_true] at hkeep
  exact ⟨hkeep.1, hkeep.2⟩

/-- Witness for C9 at a concrete input: the parsed 2019 row appears in a
filtered subset of a load whose input also contains a dropped
coordinate-free row, and both its coordinates are present. -/
theorem filtered_records_have_coordinates_witness :
    (parseRow rawRow2019).latitude.isSome = true
      ∧ (parseRow rawRow2019).longitude.isSome = true :=
  filtered_records_have_coordinates [rawNoCoord, rawRow2019] fullSpec.severity
    fullSpec.years fullSpec.weather fullSpec.light fullSpec.road
    (parseRow rawRow2019)
    (show parseRow rawRow2019 ∈ [parseRow rawRow2019] from List.Mem.head _)

/-- **C7, counterexample**: the claim says a severity code outside the known
mapping or a non-numeric year must fail the load.  At the concrete row
`badRow` (severity code 4, year cell "abc", coordinates present) the load
succeeds and produces a Record carrying the placeholder severity "nan" and a
null year. -/
theorem load_unparsed_propagates_cex :
    load_data [badRow] =
      [{ latitude := some 51.5
         longitude := some (-0.1)
         collision_severity := "nan"
         weather_conditions := "Fine"
         light_conditions := "Daylight"
         road_type := "Single carriageway"
         collision_year := none }] := by
  rfl

/-- **C7, amended**: the load never fails on coercion ambiguity: a row with
coordinates present is always loaded, an unmapped severity code propagates as
the placeholder string "nan", and an unparseable year cell propagates as a
null year. -/
theorem load_coerces_silently (q : RawRow) (hlat : q.latitude.isSome = true)
    (hlon : q.longitude.isSome = true)
    (hsev : q.collision_severity ≠ 1 ∧ q.collision_severity ≠ 2 ∧ q.collision_severity ≠ 3)
    (hyr : toNumericCoerce q.collision_year = none) :
    load_data [q] = [parseRow q]
      ∧ (parseRow q).collision_severity = "nan"
      ∧ (parseRow q).collision_year = none := by
  obtain ⟨h1, h2, h3⟩ := hsev
  have hname : severityOfCode q.collision_severity = "nan" := by
    unfold severityOfCode
    rw [if_neg h1, if_neg h2, if_neg h3]
  refine ⟨?_, ?_, hyr⟩
  · unfold load_data
    simp [hlat, hlon]
  · show stripStr (severityOfCode q.collision_severity) = "nan"
    rw [hname]
    decide

/-- Witness for the amended C7 at the concrete row `badRow`. -/
theorem load_coerces_silently_witness :
    (badRow.latitude.isSome = true ∧ badRow.collision_severity ≠ 1
        ∧ toNumericCoerce badRow.collision_year = none)
      ∧ (load_data [badRow] = [parseRow badRow]
        ∧ (parseRow badRow).collision_severity = "nan"
        ∧ (parseRow badRow).collision_year = none) :=
  ⟨⟨rfl, by decide, rfl⟩,
    load_coerces_silently badRow rfl rfl ⟨by decide, by decide, by decide⟩ rfl⟩

/-- **C8**: on the two-record scenario dataset, the all-inclusive Cluster
FilterSpec selects both rows, giving total = 2, fatal = 1 and a fatality rate
rendered "50.00%"; narrowing the severities to {Fatal} selects exactly the
2019 record, giving a rate rendered "100.00%". -/
theorem scenario_summary_figures :
    apply_filters scenarioDf fullSpec.severity fullSpec.years fullSpec.weather
        fullSpec.light fullSpec.road = [rec2019, rec2020]
      ∧ totalOf [rec2019, rec2020] = 2
      ∧ fatalOf [rec2019, rec2020] = 1
      ∧ rateDisplay (fatalOf [rec2019, rec2020]) (totalOf [rec2019, rec2020]) = "50.00%"
      ∧ apply_filters scenarioDf fatalOnlySpec.severity fatalOnlySpec.years
          fatalOnlySpec.weather fatalOnlySpec.light fatalOnlySpec.road = [rec2019]
      ∧ rateDisplay (fatalOf [rec2019]) (totalOf [rec2019]) = "100.00%" :=
  ⟨rfl, rfl, rfl, by decide, rfl, by decide⟩

/-- **C4**: when the filtered subset is empty, the apply branch surfaces the
non-fatal no-data notice, builds no map, and leaves the stored subset and map
artifact exactly as they were. -/
theorem empty_result_preserves_cache (df : List Record) (s : SessionState)
    (w : FilterState)
    (h : (apply_filters df w.severity w.years w.weather w.light w.road).isEmpty = true) :
    (applyBranch df s w).warned = true
      ∧ (applyBranch df s w).mapBuilds = 0
      ∧ (applyBranch df s w).state.df_filtered = s.df_filtered
      ∧ (applyBranch df s w).state.map_object = s.map_object := by
  simp [applyBranch, h]

/-- Witness for C4: emptying the severities set on the scenario dataset, after
a successful apply, warns and keeps the populated cache entry. -/
theorem empty_result_preserves_cache_witness :
    ((apply_filters scenarioDf emptySevSpec.severity emptySevSpec.years
        emptySevSpec.weather emptySevSpec.light emptySevSpec.road).isEmpty = true)
      ∧ ((applyBranch scenarioDf populatedOnce emptySevSpec).warned = true
        ∧ (applyBranch scenarioDf populatedOnce emptySevSpec).mapBuilds = 0
        ∧ (applyBranch scenarioDf populatedOnce emptySevSpec).state.df_filtered
            = populatedOnce.df_filtered
        ∧ (applyBranch scenarioDf populatedOnce emptySevSpec).state.map_object
            = populatedOnce.map_object) :=
  ⟨rfl, empty_result_preserves_cache scenarioDf populatedOnce emptySevSpec rfl⟩

theorem applyBranch_empty_path (df : List Record) (s : SessionState) (w : FilterState)
    (h : (apply_filters df w.severity w.years w.weather w.light w.road).isEmpty = true) :
    (applyBranch df s w).warned = true
      ∧ (applyBranch df s w).mapBuilds = 0
      ∧ (applyBranch df s w).state.df_filtered = s.df_filtered
      ∧ (applyBranch df s w).state.map_object = s.map_object := by
  simp [applyBranch, h]

/-- **C1, counterexample**: after a first apply of `fullSpec` the session is
populated and its memo holds exactly the signature of `fullSpec`, yet a second
apply of the very same `fullSpec` invokes the map construction once — not the
zero times the claim requires. -/
theorem repeat_apply_rebuilds_map_cex :
    populatedOnce.cacheKeys.contains (keyOf fullSpec) = true
      ∧ populatedOnce.map_object.isSome = true
      ∧ (applyBranch scenarioDf populatedOnce fullSpec).mapBuilds = 1 :=
  ⟨rfl, rfl, rfl⟩

/-- **C1, amended**: with the submitted FilterSpec's signature already in the
`apply_filters` memo and a non-empty result, a repeated apply does not
re-execute the filter body (the memoized subset is reused), but it does
rebuild the map artifact — exactly one Map Builder invocation per apply — and
the rebuilt artifact is the one determined by the filtered subset and the
mode, hence identical to the previously stored one. -/
theorem repeat_apply_reuses_subset_rebuilds_map (df : List Record) (s : SessionState)
    (w : FilterState)
    (hkey : s.cacheKeys.contains (keyOf w) = true)
    (hne : (apply_filters df w.severity w.years w.weather w.light w.road).isEmpty = false) :
    (applyBranch df s w).filterComputes = 0
      ∧ (applyBranch df s w).mapBuilds = 1
      ∧ (applyBranch df s w).state.map_object =
          some ⟨(apply_filters df w.severity w.years w.weather w.light w.road).map
              fun r => (r.latitude, r.longitude), w.map_mode⟩ := by
  have hmem : keyOf w ∈ s.cacheKeys := contains_true_iff_mem.mp hkey
  simp [applyBranch, hne, hmem]

/-- Witness for the amended C1 at the populated scenario session. -/
theorem repeat_apply_reuses_subset_rebuilds_map_witness :
    (populatedOnce.cacheKeys.contains (keyOf fullSpec) = true
        ∧ (apply_filters scenarioDf fullSpec.severity fullSpec.years fullSpec.weather
            fullSpec.light fullSpec.road).isEmpty = false)
      ∧ ((applyBranch scenarioDf populatedOnce fullSpec).filterComputes = 0
        ∧ (applyBranch scenarioDf populatedOnce fullSpec).mapBuilds = 1
        ∧ (applyBranch scenarioDf populatedOnce fullSpec).state.map_object =
            some ⟨(apply_filters scenarioDf fullSpec.severity fullSpec.years
                fullSpec.weather fullSpec.light fullSpec.road).map
                fun r => (r.latitude, r.longitude), fullSpec.map_mode⟩) :=
  ⟨⟨rfl, rfl⟩,
    repeat_apply_reuses_subset_rebuilds_map scenarioDf populatedOnce fullSpec rfl rfl⟩

/-- **C3, counterexample**: `fullSpec` and `fullSpecPerm` differ only in the
order of their severity selections, yet their cache keys differ, and with the
key of `fullSpec` cached, applying `fullSpecPerm` re-executes the filter body
(a memo miss) — the cache does not treat them as the same view. -/
theorem order_sensitive_signature_cex :
    keyOf fullSpec ≠ keyOf fullSpecPerm
      ∧ populatedOnce.cacheKeys.contains (keyOf fullSpec) = true
      ∧ (applyBranch scenarioDf populatedOnce fullSpecPerm).filterComputes = 1 :=
  ⟨by decide, rfl, rfl⟩

/-- **C3, amended**: FilterSpecs that differ only in the insertion order of
their category sets select the same filtered subset, but their cache keys are
the raw argument tuples, so a reordered spec whose key is not in the memo
re-executes the filter even right after its permutation was applied. -/
theorem permuted_selections_agree_but_recompute (df : List Record)
    (s : SessionState) (w1 w2 : FilterState)
    (hsev : w1.severity.Perm w2.severity) (hwea : w1.weather.Perm w2.weather)
    (hlig : w1.light.Perm w2.light) (hroa : w1.road.Perm w2.road)
    (hyrs : w1.years = w2.years)
    (hmiss : s.cacheKeys.contains (keyOf w2) = false) :
    apply_filters df w1.severity w1.years w1.weather w1.light w1.road
        = apply_filters df w2.severity w2.years w2.weather w2.light w2.road
      ∧ (applyBranch df s w2).filterComputes = 1 := by
  constructor
  · rw [apply_filters_eq_filter, apply_filters_eq_filter]
    apply List.filter_congr
    intro r _
    have csev : w1.severity.contains r.collision_severity
        = w2.severity.contains r.collision_severity := by
      rw [Bool.eq_iff_iff, contains_true_iff_mem, contains_true_iff_mem]
      exact hsev.mem_iff
    have cwea : w1.weather.contains r.weather_conditions
        = w2.weather.contains r.weather_conditions := by
      rw [Bool.eq_iff_iff, contains_true_iff_mem, contains_true_iff_mem]
      exact hwea.mem_iff
    have clig : w1.light.contains r.light_conditions
        = w2.light.contains r.light_conditions := by
      rw [Bool.eq_iff_iff, contains_true_iff_mem, contains_true_iff_mem]
      exact hlig.mem_iff
    have croa : w1.road.contains r.road_type = w2.road.contains r.road_type := by
      rw [Bool.eq_iff_iff, contains_true_iff_mem, contains_true_iff_mem]
      exact hroa.mem_iff
    unfold rowMatches
    rw [csev, cwea, clig, croa, hyrs]
  · have hnotmem : keyOf w2 ∉ s.cacheKeys := by
      intro hm
      rw [contains_true_iff_mem.mpr hm] at hmiss
      exact absurd hmiss (by decide)
    simp only [applyBranch]
    split <;> simp [hnotmem]

/-- Witness for the amended C3 with the severity order swapped. -/
theorem permuted_selections_agree_but_recompute_witness :
    (fullSpec.severity.Perm fullSpecPerm.severity
        ∧ populatedOnce.cacheKeys.contains (keyOf fullSpecPerm) = false)
      ∧ (apply_filters scenarioDf fullSpec.severity fullSpec.years fullSpec.weather
            fullSpec.light fullSpec.road
          = apply_filters scenarioDf fullSpecPerm.severity fullSpecPerm.years
            fullSpecPerm.weather fullSpecPerm.light fullSpecPerm.road
        ∧ (applyBranch scenarioDf populatedOnce fullSpecPerm).filterComputes = 1) :=
  ⟨⟨by decide, rfl⟩,
    permuted_selections_agree_but_recompute scenarioDf populatedOnce fullSpec
      fullSpecPerm (by decide) (by decide) (by decide) (by decide) rfl rfl⟩

/-- **C5, counterexample**: a year range with min > max is not rejected: the
apply branch proceeds to execute the filter (one memo-missing filter body
run), the subset silently comes out empty, and only the generic no-data
notice is shown. -/
theorem min_gt_max_not_rejected_cex :
    invYearsSpec.years.2 < invYearsSpec.years.1
      ∧ (applyBranch scenarioDf populatedOnce invYearsSpec).filterComputes = 1
      ∧ (applyBranch scenarioDf populatedOnce invYearsSpec).warned = true
      ∧ apply_filters scenarioDf invYearsSpec.severity invYearsSpec.years
          invYearsSpec.weather invYearsSpec.light invYearsSpec.road = [] :=
  ⟨by decide, rfl, rfl, rfl⟩

/-- **C5, amended**: a submitted year range with min > max is never rejected;
the filter runs and yields the empty subset (`between` matches nothing on an
inverted range), which surfaces as the generic no-data notice while the
stored subset and artifact stay unchanged. -/
theorem min_gt_max_silently_empties (df : List Record) (s : SessionState)
    (w : FilterState) (hy : w.years.2 < w.years.1) :
    apply_filters df w.severity w.years w.weather w.light w.road = []
      ∧ (applyBranch df s w).warned = true
      ∧ (applyBranch df s w).mapBuilds = 0
      ∧ (applyBranch df s w).state.df_filtered = s.df_filtered
      ∧ (applyBranch df s w).state.map_object = s.map_object := by
  have hempty : apply_filters df w.severity w.years w.weather w.light w.road = [] := by
    rw [apply_filters_eq_filter]
    rw [List.filter_eq_nil_iff]
    intro r _
    unfold rowMatches
    intro hmatch
    simp only [Bool.and_eq_true] at hmatch
    obtain ⟨⟨⟨⟨_, hyear⟩, _⟩, _⟩, _⟩ := hmatch
    cases hcy : r.collision_year with
    | none => rw [hcy] at hyear; exact Bool.false_ne_true hyear
    | some y =>
      rw [hcy] at hyear
      simp only [Bool.and_eq_true, decide_eq_true_eq] at hyear
      exact absurd (le_trans hyear.1 hyear.2) (not_le.mpr hy)
  have hE : (apply_filters df w.severity w.years w.weather w.light w.road).isEmpty
      = true := by
    rw [hempty]
    rfl
  exact ⟨hempty, applyBranch_empty_path df s w hE⟩

/-- Witness for the amended C5 on the scenario session. -/
theorem min_gt_max_silently_empties_witness :
    invYearsSpec.years.2 < invYearsSpec.years.1
      ∧ (apply_filters scenarioDf invYearsSpec.severity invYearsSpec.years
            invYearsSpec.weather invYearsSpec.light invYearsSpec.road = []
        ∧ (applyBranch scenarioDf populatedOnce invYearsSpec).warned = true
        ∧ (applyBranch scenarioDf populatedOnce invYearsSpec).mapBuilds = 0
        ∧ (applyBranch scenarioDf populatedOnce invYearsSpec).state.df_filtered
            = populatedOnce.df_filtered
        ∧ (applyBranch scenarioDf populatedOnce invYearsSpec).state.map_object
            = populatedOnce.map_object) :=
  ⟨by decide,
    min_gt_max_silently_empties scenarioDf populatedOnce invYearsSpec (by decide)⟩

theorem defaultWidgets_of_defaults (df : List Record) (s1 : SessionState)
    (h1 : s1.filters = DEFAULTS df) : defaultWidgets s1 = DEFAULTS df := by
  unfold defaultWidgets
  rw [h1]
  rfl

theorem resetAction_as_applyBranch (df : List Record) (s : SessionState) :
    resetAction df s = applyBranch df (resetBranch df s) (DEFAULTS df) := by
  unfold resetAction
  show applyBranch df (resetBranch df s) (defaultWidgets (resetBranch df s))
      = applyBranch df (resetBranch df s) (DEFAULTS df)
  rw [defaultWidgets_of_defaults df (resetBranch df s) rfl]

theorem applyBranch_defaults_projections (df : List Record) (s1 : SessionState)
    (hne : (apply_filters df (DEFAULTS df).severity (DEFAULTS df).years
        (DEFAULTS df).weather (DEFAULTS df).light (DEFAULTS df).road).isEmpty = false) :
    (applyBranch df s1 (DEFAULTS df)).mapBuilds = 1
      ∧ (applyBranch df s1 (DEFAULTS df)).state.filters = DEFAULTS df
      ∧ (applyBranch df s1 (DEFAULTS df)).state.map_object =
          some ⟨(apply_filters df (DEFAULTS df).severity (DEFAULTS df).years
              (DEFAULTS df).weather (DEFAULTS df).light (DEFAULTS df).road).map
              fun r => (r.latitude, r.longitude), (DEFAULTS df).map_mode⟩ := by
  simp [applyBranch, hne]

/-- **C6**: the reset action writes the default FilterSpec back and clears the
stored map and the initialized flag, so the rerun it triggers rebuilds the
map unconditionally (one Map Builder invocation, whatever was cached before);
resetting twice yields the same FilterSpec and the same recomputed artifact
both times, the second reset still forcing a rebuild. -/
theorem reset_restores_defaults_and_recomputes (df : List Record) (s : SessionState)
    (hne : (apply_filters df (DEFAULTS df).severity (DEFAULTS df).years
        (DEFAULTS df).weather (DEFAULTS df).light (DEFAULTS df).road).isEmpty = false) :
    (resetBranch df s).filters = DEFAULTS df
      ∧ (resetBranch df s).map_object = none
      ∧ (resetBranch df s).initialized = false
      ∧ (resetAction df s).mapBuilds = 1
      ∧ (resetAction df s).state.filters = DEFAULTS df
      ∧ (resetAction df (resetAction df s).state).mapBuilds = 1
      ∧ (resetAction df (resetAction df s).state).state.filters
          = (resetAction df s).state.filters
      ∧ (resetAction df (resetAction df s).state).state.map_object
          = (resetAction df s).state.map_object := by
  obtain ⟨hb1, hf1, hm1⟩ := applyBranch_defaults_projections df (resetBranch df s) hne
  obtain ⟨hb2, hf2, hm2⟩ :=
    applyBranch_defaults_projections df (resetBranch df (resetAction df s).state) hne
  rw [resetAction_as_applyBranch df s] at *
  rw [resetAction_as_applyBranch df (applyBranch df (resetBranch df s) (DEFAULTS df)).state]
  refine ⟨rfl, rfl, rfl, hb1, hf1, hb2, ?_, ?_⟩
  · rw [hf2, hf1]
  · rw [hm2, hm1]

/-- Witness for C6 on the populated scenario session. -/
theorem reset_restores_defaults_and_recomputes_witness :
    ((apply_filters scenarioDf (DEFAULTS scenarioDf).severity (DEFAULTS scenarioDf).years
        (DEFAULTS scenarioDf).weather (DEFAULTS scenarioDf).light
        (DEFAULTS scenarioDf).road).isEmpty = false)
      ∧ ((resetBranch scenarioDf populatedOnce).filters = DEFAULTS scenarioDf
        ∧ (resetBranch scenarioDf populatedOnce).map_object = none
        ∧ (resetBranch scenarioDf populatedOnce).initialized = false
        ∧ (resetAction scenarioDf populatedOnce).mapBuilds = 1
        ∧ (resetAction scenarioDf populatedOnce).state.filters = DEFAULTS scenarioDf
        ∧ (resetAction scenarioDf (resetAction scenarioDf populatedOnce).state).mapBuilds = 1
        ∧ (resetAction scenarioDf (resetAction scenarioDf populatedOnce).state).state.filters
            = (resetAction scenarioDf populatedOnce).state.filters
        ∧ (resetAction scenarioDf
              (resetAction scenarioDf populatedOnce).state).state.map_object
            = (resetAction scenarioDf populatedOnce).state.map_object) :=
  ⟨rfl, reset_restores_defaults_and_recomputes scenarioDf populatedOnce rfl⟩

/-- The stored filtered subset, when present, is never the empty frame. -/
def storedNonempty (s : SessionState) : Prop :=
  ∀ l : List Record, s.df_filtered = some l → l ≠ []

theorem applyBranch_preserves_storedNonempty (df : List Record) (s : SessionState)
    (w : FilterState) (h : storedNonempty s) :
    storedNonempty (applyBranch df s w).state := by
  unfold applyBranch
  by_cases hE : (apply_filters df w.severity w.years w.weather w.light w.road).isEmpty
      = true
  · simpa [hE, storedNonempty] using h
  · rw [Bool.not_eq_true] at hE
    intro l hl
    simp only [hE, Bool.false_eq_true, if_false, Option.some.injEq] at hl
    rw [← hl]
    exact List.isEmpty_eq_false.mp hE

theorem resetAction_preserves_storedNonempty (df : List Record) (s : SessionState)
    (h : storedNonempty s) : storedNonempty (resetAction df s).state := by
  unfold resetAction
  apply applyBranch_preserves_storedNonempty
  exact h

theorem step_preserves_storedNonempty (df : List Record) (s : SessionState)
    (a : Action) (h : storedNonempty s) : storedNonempty (step df s a) := by
  cases a with
  | apply w => exact applyBranch_preserves_storedNonempty df s w h
  | reset => exact resetAction_preserves_storedNonempty df s h

theorem runActions_preserves_storedNonempty (df : List Record) (acts : List Action) :
    ∀ s : SessionState, storedNonempty s → storedNonempty (runActions df s acts) := by
  induction acts with
  | nil => exact fun s h => h
  | cons a rest ih =>
    exact fun s h => ih (step df s a) (step_preserves_storedNonempty df s a h)

/-- **C10**: whenever the summary is displayed (a filtered subset is stored),
the subset reached from a fresh session by any sequence of user actions is
non-empty, so the `fatal / total` division of the summary block never divides
by zero. -/
theorem summary_division_safe (df : List Record) (acts : List Action)
    (l : List Record)
    (hsome : (runActions df (initState df) acts).df_filtered = some l) :
    totalOf l ≠ 0 := by
  have hinit : storedNonempty (initState df) := by
    intro l hl
    exact absurd hl (by simp [initState])
  have hne := runActions_preserves_storedNonempty df acts (initState df) hinit l hsome
  unfold totalOf
  rw [Ne, List.length_eq_zero]
  exact hne

/-- Witness for C10: after one apply of the scenario FilterSpec the stored
subset is the two scenario records, and its total is non-zero. -/
theorem summary_division_safe_witness :
    ((runActions scenarioDf (initState scenarioDf)
        [Action.apply fullSpec]).df_filtered = some [rec2019, rec2020])
      ∧ totalOf [rec2019, rec2020] ≠ 0 :=
  ⟨rfl, summary_division_safe scenarioDf [Action.apply fullSpec] [rec2019, rec2020] rfl⟩

end RoadAccident
